import Mathlib

/-!
# Verification of the blue-horizon durability core

A shallow embedding of the Outbox (durable post retry queue), the Draft
Store, and the Cache-Aside Read Manager of the `blue-horizon` desktop
client (`src-tauri/src/commands/actions.rs`,
`src-tauri/src/commands/timeline.rs`,
`src-tauri/src/commands/notifications.rs`, `src-tauri/src/error.rs`),
together with proofs of the specified properties.

Modelling conventions:
* Timestamps are natural numbers (seconds).  The source stores RFC3339
  strings whose lexicographic SQL comparison agrees with chronological
  order, so `≤` on `Nat` is a faithful rendering of the
  `next_retry_at <= now` comparison in the sweep's `SELECT`.
* SQLite tables are lists of rows; `INSERT` appends, `UPDATE ... WHERE
  id = ?` maps over the list, `SELECT ... ORDER BY created_at ASC
  LIMIT 10` is a stable filter-sort-take.  Storage I/O never fails in
  the model (the embedding covers the logical behaviour, not disk
  faults), so operations that in Rust return `Result<_, AppError>`
  only for storage reasons are total here; where the `Result` shape
  itself matters to a claim the model keeps an `Except AppError`.
* `serde_json` encoding/decoding of opaque payloads is a parameter:
  the sweep receives a decoder `dec : String → Except String
  CreatePostPayload` and the write path an encoder, mirroring how the
  source treats payload JSON as opaque text.
* The Remote Gateway (`send_post_via_agent`) is a parameter
  `send : CreatePostPayload → SendOutcome` classifying each delivery
  attempt, as in spec §6.
-/

/-- Error taxonomy of `src-tauri/src/error.rs` (`enum AppError`). -/
inductive AppError where
  | AuthenticationFailed (msg : String)
  | SessionNotFound
  | NetworkError (msg : String)
  | ApiError (msg : String)
  | KeyringError (msg : String)
  | InternalError (msg : String)
deriving DecidableEq, Repr

/-- The `thiserror`-derived `Display` of `AppError` (`error.to_string()`). -/
def AppError.message : AppError → String
  | .AuthenticationFailed s => "Authentication failed: " ++ s
  | .SessionNotFound => "Session not found"
  | .NetworkError s => "Network error: " ++ s
  | .ApiError s => "API error: " ++ s
  | .KeyringError s => "Keyring error: " ++ s
  | .InternalError s => "Internal error: " ++ s

/-- `should_enqueue_retry` from `actions.rs`: the error classes recovered
by enqueueing into the Outbox. -/
def should_enqueue_retry (error : AppError) : Bool :=
  match error with
  | .SessionNotFound | .NetworkError _ | .ApiError _ => true
  | _ => false

/-- The `status` column of `post_retry_queue` (the source stores the
strings `'queued' | 'retrying' | 'sent' | 'failed'`). -/
inductive QueueStatus where
  | queued
  | retrying
  | sent
  | failed
deriving DecidableEq, Repr

/-- One row of the `post_retry_queue` table (spec §3 `QueuedMutation`,
schema §6 `outbox`). -/
structure QueueRow where
  id : String
  user_did : String
  payload_json : String
  status : QueueStatus
  attempts : Int
  next_retry_at : Nat
  last_error : String
  created_at : Nat
  updated_at : Nat
  sent_at : Option Nat
deriving DecidableEq, Repr

/-- `ImageInput` from `actions.rs`. -/
structure ImageInput where
  path : String
  alt : String
deriving DecidableEq, Repr

/-- `CreatePostPayload` from `actions.rs`: the opaque mutation payload
serialized into the queue. -/
structure CreatePostPayload where
  text : String
  reply_to : Option String
  quote_uri : Option String
  quote_cid : Option String
  images : List ImageInput
deriving DecidableEq, Repr

/-- Outcome of one Remote Gateway delivery attempt
(`send_post_via_agent`). -/
inductive SendOutcome where
  | ok
  | err (e : AppError)
deriving DecidableEq, Repr

/-- `compute_next_retry_at` from `actions.rs`: the backoff delay in
seconds, `min(15 * 2^clamp(attempts, 1, 8), 1800)`. -/
def computeNextRetrySecs (attempts : Int) : Int :=
  min (15 * 2 ^ (max 1 (min 8 attempts)).toNat) 1800

/-- `compute_next_retry_at` from `actions.rs`: `now` plus the backoff
delay (`Utc::now() + Duration::seconds(backoff_secs.min(1800))`). -/
def compute_next_retry_at (now : Nat) (attempts : Int) : Nat :=
  now + (computeNextRetrySecs attempts).toNat

/-- `enqueue_post_retry` from `actions.rs`: the freshly inserted row.
`id` is the generated UUID, `now` the enqueue timestamp; the source
binds `status='queued'`, `attempts=1`, `next_retry_at = now.clone()`,
`last_error = error.to_string()`, `sent_at = NULL`. -/
def enqueueRow (id user_did payload_json : String) (error : AppError)
    (now : Nat) : QueueRow :=
  { id := id
    user_did := user_did
    payload_json := payload_json
    status := .queued
    attempts := 1
    next_retry_at := now
    last_error := error.message
    created_at := now
    updated_at := now
    sent_at := none }

/-- `enqueue_post_retry` from `actions.rs`: `INSERT` of the new queued
row into `post_retry_queue`. -/
def enqueue_post_retry (queue : List QueueRow)
    (id user_did payload_json : String) (error : AppError) (now : Nat) :
    List QueueRow :=
  queue ++ [enqueueRow id user_did payload_json error now]

/-- The eligibility predicate of the sweep's `SELECT` in
`retry_queued_posts`: rows of this identity with
`status IN ('queued','retrying')` and `next_retry_at <= now`. -/
def sweepEligible (did : String) (now : Nat) (r : QueueRow) : Bool :=
  r.user_did == did
    && (r.status == .queued || r.status == .retrying)
    && r.next_retry_at ≤ now

/-- Ordering used by `ORDER BY created_at ASC`. -/
def rowLE (a b : QueueRow) : Prop :=
  a.created_at ≤ b.created_at

instance : DecidableRel rowLE := fun _ _ => Nat.decLe _ _

instance : IsTotal QueueRow rowLE :=
  ⟨fun a b => Nat.le_total a.created_at b.created_at⟩

instance : IsTrans QueueRow rowLE :=
  ⟨fun _ _ _ h h' => Nat.le_trans h h'⟩

/-- The sweep's row selection (`SELECT id, payload_json, attempts FROM
post_retry_queue WHERE user_did = ? AND status IN ('queued','retrying')
AND next_retry_at <= ? ORDER BY created_at ASC LIMIT 10`). -/
def selectQueued (rows : List QueueRow) (did : String) (now : Nat) :
    List QueueRow :=
  ((rows.filter (sweepEligible did now)).insertionSort rowLE).take 10

/-- `UPDATE post_retry_queue SET ... WHERE id = ?`: applies the column
update `f` to every row whose `id` matches (ids are unique in practice:
`id` is the table's primary key, spec §6). -/
def applyUpdate (rows : List QueueRow) (id : String)
    (f : QueueRow → QueueRow) : List QueueRow :=
  rows.map fun r => if r.id = id then f r else r

/-- The net per-row effect of one iteration of the sweep loop in
`retry_queued_posts`, acting on the stored row `r` using the values
`(id, payload_json, attempts)` snapshotted at `SELECT` time (`snap`):
* payload decode failure: `status='failed'`, `attempts = snap+1`,
  decode error recorded, no delivery attempted;
* otherwise the row passes through `status='retrying'` and delivery is
  attempted: on success `status='sent'` with `sent_at` stamped; on
  failure `attempts = snap+1`, and `status='failed'` when that reaches
  8 (with `next_retry_at` refreshed to `now` for schema hygiene) else
  `status='queued'` with the backoff-computed `next_retry_at`. -/
def rowUpdate (now : Nat) (dec : String → Except String CreatePostPayload)
    (send : CreatePostPayload → SendOutcome) (snap : QueueRow)
    (r : QueueRow) : QueueRow :=
  match dec snap.payload_json with
  | .error msg =>
      { r with
        status := .failed
        attempts := snap.attempts + 1
        last_error := "Invalid retry payload: " ++ msg
        updated_at := now }
  | .ok payload =>
      match send payload with
      | .ok =>
          { r with status := .sent, sent_at := some now, updated_at := now }
      | .err e =>
          let next_attempts := snap.attempts + 1
          if next_attempts ≥ 8 then
            { r with
              status := .failed
              attempts := next_attempts
              next_retry_at := now
              last_error := e.message
              updated_at := now }
          else
            { r with
              status := .queued
              attempts := next_attempts
              next_retry_at := compute_next_retry_at now next_attempts
              last_error := e.message
              updated_at := now }

/-- `retry_queued_posts` from `actions.rs` (the Outbox sweep).
`sessionDid` is the stored session's DID (`current_repo_did`): absent
⇒ no-op success.  `agentPresent` models the `agent_state` mutex
holding an agent: absent ⇒ no-op success after selection.  Returns the
updated table together with the ids processed, in processing order. -/
def retry_queued_posts (st : List QueueRow) (sessionDid : Option String)
    (agentPresent : Bool) (now : Nat)
    (dec : String → Except String CreatePostPayload)
    (send : CreatePostPayload → SendOutcome) :
    Except AppError (List QueueRow × List String) :=
  match sessionDid with
  | none => .ok (st, [])
  | some did =>
      let sel := selectQueued st did now
      if sel.isEmpty then .ok (st, [])
      else if agentPresent then
        .ok (sel.foldl
          (fun acc snap =>
            (applyUpdate acc.1 snap.id (rowUpdate now dec send snap),
             acc.2 ++ [snap.id]))
          (st, []))
      else .ok (st, [])

/-- One row of the `post_drafts` table (spec §3 `Draft`). -/
structure DraftRow where
  draft_key : String
  payload_json : String
  created_at : Nat
  updated_at : Nat
deriving DecidableEq, Repr

/-- `draft_key` from `actions.rs`: the composition context key. -/
def draft_key (reply_to quote_uri : Option String) : String :=
  match reply_to with
  | some reply => "reply:" ++ reply
  | none =>
      match quote_uri with
      | some quote => "quote:" ++ quote
      | none => "post:new"

/-- `save_draft_payload` from `actions.rs`: upsert into `post_drafts`
(`INSERT ... ON CONFLICT(draft_key) DO UPDATE SET payload_json,
updated_at`; `created_at` of an existing row is kept). -/
def save_draft_payload (drafts : List DraftRow)
    (reply_to quote_uri : Option String) (payload_json : String)
    (now : Nat) : List DraftRow :=
  let key := draft_key reply_to quote_uri
  if drafts.any (fun d => d.draft_key == key) then
    drafts.map fun d =>
      if d.draft_key = key then
        { d with payload_json := payload_json, updated_at := now }
      else d
  else
    drafts ++ [{ draft_key := key, payload_json := payload_json,
                 created_at := now, updated_at := now }]

/-- `load_draft_payload` from `actions.rs`: `SELECT payload_json,
updated_at FROM post_drafts WHERE draft_key = ?`. -/
def load_draft_payload (drafts : List DraftRow)
    (reply_to quote_uri : Option String) : Option DraftRow :=
  drafts.find? fun d => d.draft_key == draft_key reply_to quote_uri

/-- `clear_draft_payload` from `actions.rs`: `DELETE FROM post_drafts
WHERE draft_key = ?`. -/
def clear_draft_payload (drafts : List DraftRow)
    (reply_to quote_uri : Option String) : List DraftRow :=
  drafts.filter fun d => !(d.draft_key == draft_key reply_to quote_uri)

/-- Rust's `str::trim`: strip leading, then trailing, whitespace. -/
def strTrim (s : String) : String :=
  ⟨(s.data.dropWhile (·.isWhitespace)).rdropWhile (·.isWhitespace)⟩

/-- The `save_post_draft` command from `actions.rs`: when the text is
empty after trimming (`text.trim().is_empty()`) and there are no
images, the call clears the draft instead of saving it; otherwise it
upserts the encoded payload. -/
def save_post_draft (drafts : List DraftRow) (text : String)
    (reply_to quote_uri quote_cid : Option String)
    (images : List ImageInput)
    (enc : CreatePostPayload → String) (now : Nat) : List DraftRow :=
  if (strTrim text).isEmpty && images.isEmpty then
    clear_draft_payload drafts reply_to quote_uri
  else
    save_draft_payload drafts reply_to quote_uri
      (enc { text := text, reply_to := reply_to, quote_uri := quote_uri,
             quote_cid := quote_cid, images := images }) now

/-- The `clear_post_draft` command from `actions.rs`. -/
def clear_post_draft (drafts : List DraftRow)
    (reply_to quote_uri : Option String) : List DraftRow :=
  clear_draft_payload drafts reply_to quote_uri

/-- The `create_post` command from `actions.rs`, after the immediate
delivery attempt has produced `send_result`.  State is the pair
(drafts table, retry queue); `newId` is the UUID a fresh enqueue would
use and `now` the current time.  On delivery success the draft for the
payload's context is cleared; on a retryable failure
(`should_enqueue_retry`) the payload is enqueued, the draft cleared,
and the command succeeds; otherwise the error is returned with both
tables untouched. -/
def create_post (drafts : List DraftRow) (queue : List QueueRow)
    (did : String) (payload : CreatePostPayload)
    (enc : CreatePostPayload → String) (send_result : SendOutcome)
    (newId : String) (now : Nat) :
    Except AppError Unit × List DraftRow × List QueueRow :=
  match send_result with
  | .ok =>
      (.ok (),
       clear_draft_payload drafts payload.reply_to payload.quote_uri,
       queue)
  | .err e =>
      if should_enqueue_retry e then
        (.ok (),
         clear_draft_payload drafts payload.reply_to payload.quote_uri,
         enqueue_post_retry queue newId did (enc payload) e now)
      else
        (.error e, drafts, queue)

/-- `cursor_key` from `timeline.rs` / `notifications.rs`:
`cursor.unwrap_or_default()`. -/
def cursor_key (cursor : Option String) : String :=
  cursor.getD ""

/-- A per-identity, per-key cache table (`timeline_cache`,
`notifications_cache`, `profile_cache`): rows `(user_did, key,
payload)`.  The snapshot payload is stored as the value itself (the
source stores its JSON encoding and decodes on load; the model uses
the canonical codec). -/
abbrev CacheTable (κ : Type) (α : Type) := List (String × κ × α)

/-- Cache lookup (`SELECT payload_json ... WHERE user_did = ?1 AND
<key> = ?2`). -/
def cacheLookup {κ α : Type} [BEq κ] (cache : CacheTable κ α)
    (user_did : String) (key : κ) : Option α :=
  (cache.find? fun e => e.1 == user_did && e.2.1 == key).map (·.2.2)

/-- Cache upsert (`INSERT ... ON CONFLICT(user_did, <key>) DO UPDATE
SET payload_json, cached_at`). -/
def cacheUpsert {κ α : Type} [BEq κ] (cache : CacheTable κ α)
    (user_did : String) (key : κ) (value : α) : CacheTable κ α :=
  if cache.any (fun e => e.1 == user_did && e.2.1 == key) then
    cache.map fun e =>
      if e.1 == user_did && e.2.1 == key then (e.1, e.2.1, value) else e
  else
    cache ++ [(user_did, key, value)]

/-- The shared synchronous tail of `get_timeline` and
`get_notifications`: fetch the remote; on success persist the page
under the request's cursor key and return it; on failure fall back to
the cache entry of that exact key, else propagate the error. -/
def syncFetchAndCache {α : Type} (cache : CacheTable String α)
    (user_did ck : String) (fetch : Except AppError α) :
    Except AppError α × CacheTable String α × Bool :=
  match fetch with
  | .ok remote => (.ok remote, cacheUpsert cache user_did ck remote, false)
  | .error remote_err =>
      match cacheLookup cache user_did ck with
      | some cached => (.ok cached, cache, false)
      | none => (.error remote_err, cache, false)

/-- The `get_timeline` command from `timeline.rs`, generic in the
snapshot type `α`.  The first `Option String` is
`current_user_did()`; `fetch` is the outcome `fetch_timeline_remote`
would produce.  Returns the command result, the cache table when the
command returns, and whether a detached background refresh task was
spawned (its effect is not part of the synchronous state).
Cursor-less requests with a cached root page return it and spawn a
refresh; otherwise the remote is fetched synchronously via
`syncFetchAndCache` keyed by the request's cursor key. -/
def get_timeline {α : Type} (cache : CacheTable String α) :
    Option String → Option String → Except AppError α →
    Except AppError α × CacheTable String α × Bool
  | none, _, _ => (.error .SessionNotFound, cache, false)
  | some user_did, none, fetch =>
      match cacheLookup cache user_did "" with
      | some cached => (.ok cached, cache, true)
      | none => syncFetchAndCache cache user_did (cursor_key none) fetch
  | some user_did, some c, fetch =>
      syncFetchAndCache cache user_did (cursor_key (some c)) fetch

/-- The `get_notifications` command from `notifications.rs`: the same
cache-aside shape as `get_timeline` over the `notifications_cache`
table. -/
def get_notifications {α : Type} (cache : CacheTable String α) :
    Option String → Option String → Except AppError α →
    Except AppError α × CacheTable String α × Bool
  | none, _, _ => (.error .SessionNotFound, cache, false)
  | some user_did, none, fetch =>
      match cacheLookup cache user_did "" with
      | some cached => (.ok cached, cache, true)
      | none => syncFetchAndCache cache user_did (cursor_key none) fetch
  | some user_did, some c, fetch =>
      syncFetchAndCache cache user_did (cursor_key (some c)) fetch

/-- Handles are modelled as lists of Unicode scalar values; atproto
handles are ASCII, for which the character operations below agree with
Rust's `str::trim` and `str::to_lowercase`. -/
abbrev Handle := List Nat

/-- ASCII lowercasing of one scalar value (`char::to_lowercase` on the
ASCII range). -/
def lowerCode (c : Nat) : Nat :=
  if 65 ≤ c ∧ c ≤ 90 then c + 32 else c

/-- Whitespace test used by `str::trim` (ASCII range of
`char::is_whitespace`). -/
def isWsCode (c : Nat) : Bool :=
  c == 32 || c == 9 || c == 10 || c == 11 || c == 12 || c == 13

/-- `str::trim`: strip leading, then trailing, whitespace. -/
def trimCodes (s : List Nat) : List Nat :=
  (s.dropWhile isWsCode).rdropWhile isWsCode

/-- `str::to_lowercase`. -/
def lowerCodes (s : List Nat) : List Nat :=
  s.map lowerCode

/-- The normalization `request.handle.trim().to_lowercase()` performed
at the top of `get_profile`. -/
def normalizeHandle (h : Handle) : Handle :=
  lowerCodes (trimCodes h)

/-- Body of the `get_profile` command from `timeline.rs` after the
handle has been normalized: cache hit returns the cached profile and
spawns a background refresh for the normalized handle; cache miss
fetches synchronously, persisting a success under the normalized
handle and falling back to the cache on failure.  The third component
is the handle a detached refresh task was spawned for, if any. -/
def get_profile_core {α : Type} (cache : CacheTable Handle α)
    (user_did : String) (handle : Handle)
    (fetch : Handle → Except AppError α) :
    Except AppError α × CacheTable Handle α × Option Handle :=
  match cacheLookup cache user_did handle with
  | some cached => (.ok cached, cache, some handle)
  | none =>
      match fetch handle with
      | .ok profile =>
          (.ok profile, cacheUpsert cache user_did handle profile, none)
      | .error remote_err =>
          match cacheLookup cache user_did handle with
          | some cached => (.ok cached, cache, none)
          | none => (.error remote_err, cache, none)

/-- The `get_profile` command from `timeline.rs`: normalizes the
requested handle (`request.handle.trim().to_lowercase()`) and runs the
cache-aside read on the normalized handle only. -/
def get_profile {α : Type} (cache : CacheTable Handle α) :
    Option String → Handle → (Handle → Except AppError α) →
    Except AppError α × CacheTable Handle α × Option Handle
  | none, _, _ => (.error .SessionNotFound, cache, none)
  | some user_did, handle, fetch =>
      get_profile_core cache user_did (normalizeHandle handle) fetch

/-! ## Handle-normalization lemmas -/

theorem lowerCode_idem (c : Nat) : lowerCode (lowerCode c) = lowerCode c := by
  by_cases h : 65 ≤ c ∧ c ≤ 90
  · have h2 : ¬(65 ≤ c + 32 ∧ c + 32 ≤ 90) := by omega
    simp only [lowerCode, if_pos h, if_neg h2]
  · simp only [lowerCode, if_neg h]

theorem isWsCode_eq_false (c : Nat) (h : 33 ≤ c) : isWsCode c = false := by
  simp only [isWsCode, Bool.or_eq_false_iff, beq_eq_false_iff_ne, ne_eq]
  omega

theorem isWsCode_lowerCode (c : Nat) : isWsCode (lowerCode c) = isWsCode c := by
  unfold lowerCode
  split
  · rename_i h
    rw [isWsCode_eq_false (c + 32) (by omega), isWsCode_eq_false c (by omega)]
  · rfl

theorem lowerCodes_idem (s : List Nat) : lowerCodes (lowerCodes s) = lowerCodes s := by
  simp [lowerCodes, List.map_map, Function.comp, lowerCode_idem]

theorem dropWhile_map_lower (s : List Nat) :
    (s.map lowerCode).dropWhile isWsCode = (s.dropWhile isWsCode).map lowerCode := by
  induction s with
  | nil => rfl
  | cons c t ih =>
      simp only [List.map_cons, List.dropWhile_cons, isWsCode_lowerCode]
      split <;> simp_all

theorem rdropWhile_map_lower (s : List Nat) :
    (s.map lowerCode).rdropWhile isWsCode = (s.rdropWhile isWsCode).map lowerCode := by
  simp only [List.rdropWhile, ← List.map_reverse, dropWhile_map_lower]

theorem trimCodes_lowerCodes (s : List Nat) :
    trimCodes (lowerCodes s) = lowerCodes (trimCodes s) := by
  simp only [trimCodes, lowerCodes, dropWhile_map_lower, rdropWhile_map_lower]

theorem dropWhile_rdropWhile_of_dropped (C : List Nat)
    (hC : C.dropWhile isWsCode = C) :
    (C.rdropWhile isWsCode).dropWhile isWsCode = C.rdropWhile isWsCode := by
  obtain ⟨t, ht⟩ := List.rdropWhile_prefix isWsCode C
  cases hR : C.rdropWhile isWsCode with
  | nil => simp
  | cons a R =>
      have hC' : a :: (R ++ t) = C := by
        rw [← ht, hR]
        simp
      have ha : isWsCode a = false := by
        cases ha : isWsCode a
        · rfl
        · exfalso
          rw [← hC', List.dropWhile_cons, if_pos ha] at hC
          have hle := (List.dropWhile_sublist (p := isWsCode)
            (l := R ++ t)).length_le
          have := congrArg List.length hC
          simp only [List.length_cons] at this
          omega
      simp [List.dropWhile_cons, ha]

theorem trimCodes_idem (s : List Nat) : trimCodes (trimCodes s) = trimCodes s := by
  unfold trimCodes
  rw [dropWhile_rdropWhile_of_dropped (s.dropWhile isWsCode)
        (List.dropWhile_idempotent (p := isWsCode) (l := s)),
      List.rdropWhile_idempotent]

theorem normalizeHandle_idem (h : Handle) :
    normalizeHandle (normalizeHandle h) = normalizeHandle h := by
  unfold normalizeHandle
  rw [trimCodes_lowerCodes, lowerCodes_idem, trimCodes_idem]

/-! ## Sweep lemmas -/

theorem rowUpdate_id (now : Nat) (dec : String → Except String CreatePostPayload)
    (send : CreatePostPayload → SendOutcome) (snap r : QueueRow) :
    (rowUpdate now dec send snap r).id = r.id := by
  unfold rowUpdate
  cases dec snap.payload_json with
  | error msg => rfl
  | ok p =>
      dsimp only
      cases send p with
      | ok => rfl
      | err e =>
          dsimp only
          split <;> rfl

theorem mem_selectQueued {st : List QueueRow} {did : String} {now : Nat}
    {r : QueueRow} (h : r ∈ selectQueued st did now) :
    r ∈ st ∧ sweepEligible did now r = true := by
  unfold selectQueued at h
  have h1 : r ∈ (st.filter (sweepEligible did now)).insertionSort rowLE :=
    List.take_subset _ _ h
  have h2 : r ∈ st.filter (sweepEligible did now) :=
    (List.perm_insertionSort rowLE _).mem_iff.mp h1
  exact ⟨List.mem_of_mem_filter h2, List.of_mem_filter h2⟩

theorem selectQueued_length_le (st : List QueueRow) (did : String) (now : Nat) :
    (selectQueued st did now).length ≤ 10 := by
  unfold selectQueued
  exact List.length_take_le 10 _

theorem selectQueued_sorted (st : List QueueRow) (did : String) (now : Nat) :
    List.Pairwise rowLE (selectQueued st did now) := by
  unfold selectQueued
  exact List.Pairwise.sublist (List.take_sublist _ _)
    (List.sorted_insertionSort rowLE _)

theorem selectQueued_nodup_ids {st : List QueueRow} (did : String) (now : Nat)
    (h : (st.map (·.id)).Nodup) :
    ((selectQueued st did now).map (·.id)).Nodup := by
  unfold selectQueued
  have h1 : ((st.filter (sweepEligible did now)).map (·.id)).Nodup :=
    List.Nodup.sublist (List.Sublist.map _ (List.filter_sublist st)) h
  have hperm : List.Perm
      (((st.filter (sweepEligible did now)).insertionSort rowLE).map (·.id))
      ((st.filter (sweepEligible did now)).map (·.id)) :=
    (List.perm_insertionSort rowLE _).map _
  have h2 := (hperm.nodup_iff).mpr h1
  exact List.Nodup.sublist (List.Sublist.map _ (List.take_sublist _ _)) h2

theorem foldl_pair {α β γ : Type} (f : α → γ → α) (g : β → γ → β)
    (l : List γ) (a : α) (b : β) :
    (l.foldl (fun p c => (f p.1 c, g p.2 c)) (a, b))
      = (l.foldl f a, l.foldl g b) := by
  induction l generalizing a b with
  | nil => rfl
  | cons c t ih => simp [List.foldl_cons, ih]

theorem foldl_append_ids (l : List QueueRow) (init : List String) :
    l.foldl (fun ids s => ids ++ [s.id]) init = init ++ l.map (·.id) := by
  induction l generalizing init with
  | nil => simp
  | cons c t ih => simp [List.foldl_cons, ih]

theorem foldl_applyUpdate_eq_map
    (f : QueueRow → QueueRow → QueueRow)
    (hid : ∀ s r, (f s r).id = r.id)
    (sel : List QueueRow) :
    ∀ st : List QueueRow,
      (∀ s ∈ sel, s ∈ st) →
      ((st.map (·.id)).Nodup) →
      ((sel.map (·.id)).Nodup) →
      sel.foldl (fun acc s => applyUpdate acc s.id (f s)) st
        = st.map (fun r =>
            if sel.any (fun s => s.id == r.id) then f r r else r) := by
  induction sel with
  | nil =>
      intro st _ _ _
      simp
  | cons s tl ih =>
      intro st hsub hst hsel
      simp only [List.map_cons, List.nodup_cons] at hsel
      obtain ⟨hs_not_tl, hsel_tl⟩ := hsel
      have hs_mem : s ∈ st := hsub s (List.mem_cons_self _ _)
      have hids : (applyUpdate st s.id (f s)).map (·.id) = st.map (·.id) := by
        unfold applyUpdate
        rw [List.map_map]
        apply List.map_congr_left
        intro r _
        by_cases h : r.id = s.id
        · simp [h, hid]
        · simp [h]
      have hst1 : ((applyUpdate st s.id (f s)).map (·.id)).Nodup := by
        rw [hids]; exact hst
      have hsub1 : ∀ u ∈ tl, u ∈ applyUpdate st s.id (f s) := by
        intro u htl
        have hu_st : u ∈ st := hsub u (List.mem_cons_of_mem _ htl)
        have hne : u.id ≠ s.id := by
          intro heq
          exact hs_not_tl (heq ▸ List.mem_map_of_mem (·.id) htl)
        have heval : (fun r => if r.id = s.id then f s r else r) u = u := by
          simp [hne]
        unfold applyUpdate
        rw [← heval]
        exact List.mem_map_of_mem _ hu_st
      rw [List.foldl_cons, ih (applyUpdate st s.id (f s)) hsub1 hst1 hsel_tl]
      unfold applyUpdate
      rw [List.map_map]
      apply List.map_congr_left
      intro r hr
      simp only [Function.comp]
      by_cases hcase : r.id = s.id
      · have hr_eq : r = s := List.inj_on_of_nodup_map hst hr hs_mem hcase
        have hfid : (f s r).id = s.id := by rw [hid s r, hcase]
        have hany_tl : tl.any (fun u => u.id == (f s r).id) = false := by
          rw [List.any_eq_false]
          intro u hu
          simp only [beq_iff_eq, hfid]
          intro hcontra
          exact hs_not_tl (hcontra ▸ List.mem_map_of_mem (·.id) hu)
        simp only [if_pos hcase, hany_tl, if_neg (by simp : ¬(false = true)),
          List.any_cons]
        rw [hr_eq]
        simp
      · have hbeq : (s.id == r.id) = false := by
          simp only [beq_eq_false_iff_ne, ne_eq]
          exact fun h => hcase h.symm
        simp only [if_neg hcase, List.any_cons, hbeq, Bool.false_or]

/-- Characterization of one sweep with a session and an agent: every
selected row receives its `rowUpdate` and every other row is left
unchanged, and the processed ids are exactly the selected ids in
selection order.  Requires unique ids (the `id` primary key). -/
theorem retry_queued_posts_char (st : List QueueRow) (did : String)
    (now : Nat) (dec : String → Except String CreatePostPayload)
    (send : CreatePostPayload → SendOutcome)
    (hnodup : (st.map (·.id)).Nodup) :
    retry_queued_posts st (some did) true now dec send
      = .ok (st.map (fun r =>
            if (selectQueued st did now).any (fun s => s.id == r.id)
            then rowUpdate now dec send r r else r),
          (selectQueued st did now).map (·.id)) := by
  unfold retry_queued_posts
  by_cases hempty : (selectQueued st did now).isEmpty
  · have hnil : selectQueued st did now = [] := by
      cases h : selectQueued st did now
      · rfl
      · rw [h] at hempty; simp [List.isEmpty] at hempty
    simp [hnil]
  · simp only [hempty, if_true, if_false, Bool.false_eq_true]
    rw [foldl_pair (fun stAcc snap =>
          applyUpdate stAcc snap.id (rowUpdate now dec send snap))
        (fun ids snap => ids ++ [snap.id])]
    rw [foldl_append_ids]
    rw [foldl_applyUpdate_eq_map (rowUpdate now dec send)
          (rowUpdate_id now dec send) (selectQueued st did now) st
          (fun s hs => (mem_selectQueued hs).1) hnodup
          (selectQueued_nodup_ids did now hnodup)]
    simp

/-! ## Sample values used by concrete witnesses -/

/-- A concrete payload for witness scenarios. -/
def samplePayload : CreatePostPayload :=
  { text := "hi", reply_to := none, quote_uri := none, quote_cid := none,
    images := [] }

/-- A concrete payload encoder for witness scenarios. -/
def sampleEnc : CreatePostPayload → String := fun _ => "p"

/-- A concrete payload decoder for witness scenarios: decodes `"p"`,
rejects everything else. -/
def sampleDec : String → Except String CreatePostPayload :=
  fun s => if s = "p" then .ok samplePayload else .error "bad json"

/-- A Remote Gateway stub whose every delivery attempt fails with a
transient network error. -/
def sendNetworkFail : CreatePostPayload → SendOutcome :=
  fun _ => .err (.NetworkError "connection reset")

/-! ## Claim theorems -/

/-- C7: every successful enqueue creates a row with `status=queued`,
`attempts=1`, `next_retry_at` equal to the enqueue time (hence
eligible for any sweep at `t ≥ now`), and `last_error` set to the
supplied failure reason. -/
theorem enqueue_row_fields (queue : List QueueRow) (id did pj : String)
    (e : AppError) (now : Nat) :
    enqueue_post_retry queue id did pj e now
      = queue ++ [enqueueRow id did pj e now]
    ∧ (enqueueRow id did pj e now).status = .queued
    ∧ (enqueueRow id did pj e now).attempts = 1
    ∧ (enqueueRow id did pj e now).next_retry_at = now
    ∧ (enqueueRow id did pj e now).last_error = e.message
    ∧ ∀ t, now ≤ t → sweepEligible did t (enqueueRow id did pj e now) = true := by
  refine ⟨rfl, rfl, rfl, rfl, rfl, ?_⟩
  intro t ht
  simp [sweepEligible, enqueueRow, ht]

/-- Witness for C7 at a concrete input. -/
theorem enqueue_row_fields_witness :
    sweepEligible "did" 5 (enqueueRow "id" "did" "p" (.NetworkError "x") 5)
      = true :=
  (enqueue_row_fields [] "id" "did" "p" (.NetworkError "x") 5).2.2.2.2.2 5
    (Nat.le_refl 5)

/-- C1 counterexample: after enqueue (attempts=1) and one sweep whose
delivery fails transiently, `next_retry_at` is `now + 60` (the backoff
is applied to the incremented attempt count 2), not `now + 30` as
claimed. -/
theorem first_backoff_counterexample :
    retry_queued_posts
        (enqueue_post_retry [] "id1" "did" "p" (.NetworkError "offline") 0)
        (some "did") true 100 sampleDec sendNetworkFail
      = .ok ([{ id := "id1", user_did := "did", payload_json := "p",
                status := .queued, attempts := 2, next_retry_at := 160,
                last_error := "Network error: connection reset",
                created_at := 0, updated_at := 100, sent_at := none }],
             ["id1"])
    ∧ (160 : Nat) ≠ 100 + 30 := by
  constructor
  · rfl
  · decide

/-- C1 (amended): starting from a freshly enqueued row (attempts=1,
status=queued), a sweep at time `t1` whose single delivery attempt
fails leaves the row with `status=queued`, `attempts=2`, and
`next_retry_at = t1 + 60` — the backoff delay `15·2^2` for the
post-increment attempt count 2 (not `t1 + 30`). -/
theorem first_sweep_backoff_sixty (id did pj : String) (e0 e : AppError)
    (t0 t1 : Nat) (p : CreatePostPayload)
    (dec : String → Except String CreatePostPayload)
    (hdec : dec pj = .ok p) (ht : t0 ≤ t1) :
    retry_queued_posts (enqueue_post_retry [] id did pj e0 t0)
        (some did) true t1 dec (fun _ => .err e)
      = .ok ([{ id := id, user_did := did, payload_json := pj,
                status := .queued, attempts := 2, next_retry_at := t1 + 60,
                last_error := e.message, created_at := t0, updated_at := t1,
                sent_at := none }], [id]) := by
  have hnodup : ((enqueue_post_retry [] id did pj e0 t0).map (·.id)).Nodup := by
    simp [enqueue_post_retry, enqueueRow]
  rw [retry_queued_posts_char _ _ _ _ _ hnodup]
  have hsel : selectQueued (enqueue_post_retry [] id did pj e0 t0) did t1
      = [enqueueRow id did pj e0 t0] := by
    unfold selectQueued enqueue_post_retry
    simp [sweepEligible, enqueueRow, ht]
  rw [hsel]
  simp only [enqueue_post_retry, List.nil_append, List.map_cons, List.map_nil,
    List.any_cons, List.any_nil, Bool.or_false, beq_self_eq_true, if_pos]
  unfold rowUpdate
  rw [show (enqueueRow id did pj e0 t0).payload_json = pj from rfl, hdec]
  simp only [enqueueRow, compute_next_retry_at, computeNextRetrySecs]
  norm_num
  decide

/-- Witness for the amended C1 at a concrete input. -/
theorem first_sweep_backoff_sixty_witness :
    retry_queued_posts (enqueue_post_retry [] "idw" "didw" "p" (.ApiError "a") 3)
        (some "didw") true 7 sampleDec (fun _ => .err (.NetworkError "n"))
      = .ok ([{ id := "idw", user_did := "didw", payload_json := "p",
                status := .queued, attempts := 2, next_retry_at := 67,
                last_error := "Network error: n", created_at := 3,
                updated_at := 7, sent_at := none }], ["idw"]) :=
  first_sweep_backoff_sixty "idw" "didw" "p" (.ApiError "a")
    (.NetworkError "n") 3 7 samplePayload sampleDec (by rfl)
    (by decide)

/-- C2: error routing of `create_post` after a failed immediate
delivery.  `should_enqueue_retry` holds exactly for `SessionNotFound`
(NotAuthenticated), `NetworkError` (NetworkTransient) and `ApiError`
(RemoteRejected); for those the payload is enqueued, the draft for the
payload's context key is cleared, and the command reports success; for
`AuthenticationFailed`, `KeyringError` and `InternalError` the error is
returned, nothing is enqueued, and the draft is untouched. -/
theorem create_post_error_routing (drafts : List DraftRow)
    (queue : List QueueRow) (did : String) (payload : CreatePostPayload)
    (enc : CreatePostPayload → String) (newId : String) (now : Nat)
    (e : AppError) :
    (should_enqueue_retry e = true ↔
       e = .SessionNotFound ∨ (∃ s, e = .NetworkError s)
         ∨ (∃ s, e = .ApiError s))
    ∧ (should_enqueue_retry e = true →
        create_post drafts queue did payload enc (.err e) newId now
          = (.ok (),
             clear_draft_payload drafts payload.reply_to payload.quote_uri,
             queue ++ [enqueueRow newId did (enc payload) e now]))
    ∧ (should_enqueue_retry e = false →
        create_post drafts queue did payload enc (.err e) newId now
          = (.error e, drafts, queue)) := by
  refine ⟨?_, ?_, ?_⟩
  · cases e <;> simp [should_enqueue_retry]
  · intro h
    simp [create_post, h, enqueue_post_retry]
  · intro h
    simp [create_post, h]

/-- Witness for C2 at concrete inputs: a transient network error is
queued and succeeds; an internal error is surfaced with state
untouched. -/
theorem create_post_error_routing_witness :
    create_post [] [] "did" samplePayload sampleEnc
        (.err (.NetworkError "x")) "id9" 5
      = (.ok (), [], [enqueueRow "id9" "did" "p" (.NetworkError "x") 5])
    ∧ create_post [] [] "did" samplePayload sampleEnc
        (.err (.InternalError "y")) "id9" 5
      = (.error (.InternalError "y"), [], []) := by
  constructor
  · have h := (create_post_error_routing [] [] "did" samplePayload sampleEnc
      "id9" 5 (.NetworkError "x")).2.1 (by decide)
    simpa [sampleEnc] using h
  · exact (create_post_error_routing [] [] "did" samplePayload sampleEnc
      "id9" 5 (.InternalError "y")).2.2 (by decide)

/-- A concrete queued row for witnesses (about to exhaust attempts). -/
def rowQ : QueueRow :=
  { id := "q1", user_did := "d", payload_json := "p", status := .queued,
    attempts := 7, next_retry_at := 0, last_error := "", created_at := 1,
    updated_at := 0, sent_at := none }

/-- A concrete terminally failed row for witnesses. -/
def rowF : QueueRow :=
  { id := "f1", user_did := "d", payload_json := "p", status := .failed,
    attempts := 8, next_retry_at := 0, last_error := "gone", created_at := 0,
    updated_at := 0, sent_at := none }

/-- Rows selected by the sweep are never in a terminal state: the
`SELECT` filters on `status IN ('queued','retrying')`. -/
theorem selectQueued_not_terminal {st : List QueueRow} {did : String}
    {now : Nat} {r : QueueRow} (h : r ∈ selectQueued st did now) :
    r.status ≠ .sent ∧ r.status ≠ .failed := by
  have helig := (mem_selectQueued h).2
  simp only [sweepEligible, Bool.and_eq_true, Bool.or_eq_true,
    beq_iff_eq] at helig
  obtain ⟨⟨_, hstatus⟩, _⟩ := helig
  cases hstatus with
  | inl hq => rw [hq]; exact ⟨by decide, by decide⟩
  | inr hr => rw [hr]; exact ⟨by decide, by decide⟩

/-- C3: terminal-state invariant.  (a) A delivery failure that raises
the snapshot's attempt count to 8 or more marks the row failed;
(b) rows whose status is `sent` or `failed` are never selected by the
sweep; (c) a sweep leaves every `sent`/`failed` row unchanged at its
position (given unique ids, the `id` primary key). -/
theorem outbox_terminal_state_invariant (now : Nat)
    (dec : String → Except String CreatePostPayload)
    (send : CreatePostPayload → SendOutcome) :
    (∀ (snap r : QueueRow) (p : CreatePostPayload) (e : AppError),
        dec snap.payload_json = .ok p → send p = .err e →
        snap.attempts + 1 ≥ 8 →
        (rowUpdate now dec send snap r).status = .failed
          ∧ (rowUpdate now dec send snap r).attempts = snap.attempts + 1)
    ∧ (∀ (st : List QueueRow) (did : String) (r : QueueRow),
        r ∈ selectQueued st did now →
        r.status ≠ .sent ∧ r.status ≠ .failed)
    ∧ (∀ (st : List QueueRow) (sessionDid : Option String) (agentP : Bool)
        (i : Nat) (r : QueueRow),
        (st.map (·.id)).Nodup → st[i]? = some r →
        (r.status = .sent ∨ r.status = .failed) →
        ∀ st' ids,
          retry_queued_posts st sessionDid agentP now dec send
            = .ok (st', ids) → st'[i]? = some r) := by
  refine ⟨?_, ?_, ?_⟩
  · intro snap r p e hdec hsend hge
    unfold rowUpdate
    rw [hdec]
    dsimp only
    rw [hsend]
    dsimp only
    rw [if_pos hge]
    exact ⟨rfl, rfl⟩
  · intro st did r hmem
    exact selectQueued_not_terminal hmem
  · intro st sessionDid agentP i r hnodup hget hterm st' ids heq
    cases sessionDid with
    | none =>
        unfold retry_queued_posts at heq
        rw [Except.ok.injEq, Prod.mk.injEq] at heq
        rw [← heq.1]
        exact hget
    | some did =>
        cases agentP with
        | false =>
            unfold retry_queued_posts at heq
            simp only [Bool.false_eq_true, if_false, ite_self] at heq
            rw [Except.ok.injEq, Prod.mk.injEq] at heq
            rw [← heq.1]
            exact hget
        | true =>
            rw [retry_queued_posts_char st did now dec send hnodup] at heq
            rw [Except.ok.injEq, Prod.mk.injEq] at heq
            have hr_mem : r ∈ st := by
              obtain ⟨hlt, hgetr⟩ := List.getElem?_eq_some_iff.mp hget
              exact hgetr ▸ List.getElem_mem hlt
            have hany : (selectQueued st did now).any
                (fun s => s.id == r.id) = false := by
              rw [List.any_eq_false]
              intro s hs
              simp only [beq_iff_eq]
              intro hsid
              have hs_eq : s = r :=
                List.inj_on_of_nodup_map hnodup ((mem_selectQueued hs).1)
                  hr_mem hsid
              have hnt := selectQueued_not_terminal hs
              cases hterm with
              | inl hsent => exact (hs_eq ▸ hnt).1 hsent
              | inr hfail => exact (hs_eq ▸ hnt).2 hfail
            rw [← heq.1, List.getElem?_map, hget]
            simp only [Option.map_some']
            rw [hany]
            simp

/-- Witness for C3 at concrete inputs: the 8th attempt fails
terminally, a queued row is selectable, and a failed row survives a
sweep untouched. -/
theorem outbox_terminal_state_invariant_witness :
    ((rowUpdate 5 sampleDec sendNetworkFail rowQ rowQ).status = .failed
      ∧ (rowUpdate 5 sampleDec sendNetworkFail rowQ rowQ).attempts
          = rowQ.attempts + 1)
    ∧ (rowQ.status ≠ .sent ∧ rowQ.status ≠ .failed)
    ∧ (([rowF, rowUpdate 5 sampleDec sendNetworkFail rowQ rowQ] :
          List QueueRow)[0]? = some rowF) := by
  refine ⟨?_, ?_, ?_⟩
  · exact (outbox_terminal_state_invariant 5 sampleDec sendNetworkFail).1
      rowQ rowQ samplePayload (.NetworkError "connection reset") (by rfl)
      (by rfl) (by decide)
  · exact (outbox_terminal_state_invariant 5 sampleDec sendNetworkFail).2.1
      [rowQ] "d" rowQ (by decide)
  · exact (outbox_terminal_state_invariant 5 sampleDec sendNetworkFail).2.2
      [rowF, rowQ] (some "d") true 0 rowF (by decide) (by decide)
      (Or.inr (by decide))
      [rowF, rowUpdate 5 sampleDec sendNetworkFail rowQ rowQ] ["q1"]
      (by rfl)

/-- C4: a sweep without an authenticated identity is a success no-op;
otherwise selection takes at most 10 rows, each owned by the identity
with `status ∈ {queued, retrying}` and `next_retry_at ≤ now`, in
ascending `created_at` order, and the rows are processed exactly in
that selection order. -/
theorem sweep_noop_and_selection (st : List QueueRow) (did : String)
    (now : Nat) (agentP : Bool)
    (dec : String → Except String CreatePostPayload)
    (send : CreatePostPayload → SendOutcome) :
    retry_queued_posts st none agentP now dec send = .ok (st, [])
    ∧ (selectQueued st did now).length ≤ 10
    ∧ (∀ r ∈ selectQueued st did now,
        r.user_did = did ∧ (r.status = .queued ∨ r.status = .retrying)
          ∧ r.next_retry_at ≤ now)
    ∧ List.Pairwise rowLE (selectQueued st did now)
    ∧ ((st.map (·.id)).Nodup →
        ∀ st' ids,
          retry_queued_posts st (some did) true now dec send = .ok (st', ids) →
          ids = (selectQueued st did now).map (·.id)) := by
  refine ⟨rfl, selectQueued_length_le st did now, ?_,
    selectQueued_sorted st did now, ?_⟩
  · intro r hmem
    have helig := (mem_selectQueued hmem).2
    simp only [sweepEligible, Bool.and_eq_true, Bool.or_eq_true,
      beq_iff_eq, decide_eq_true_eq] at helig
    exact ⟨helig.1.1, helig.1.2, helig.2⟩
  · intro hnodup st' ids heq
    rw [retry_queued_posts_char st did now dec send hnodup] at heq
    rw [Except.ok.injEq, Prod.mk.injEq] at heq
    exact heq.2.symm

/-- Witness for C4 at concrete inputs. -/
theorem sweep_noop_and_selection_witness :
    (rowQ.user_did = "d" ∧ (rowQ.status = .queued ∨ rowQ.status = .retrying)
      ∧ rowQ.next_retry_at ≤ 5)
    ∧ ["q1"] = (selectQueued [rowQ] "d" 5).map (·.id) := by
  constructor
  · exact (sweep_noop_and_selection [rowQ] "d" 5 true sampleDec
      sendNetworkFail).2.2.1 rowQ (by decide)
  · exact (sweep_noop_and_selection [rowQ] "d" 5 true sampleDec
      sendNetworkFail).2.2.2.2 (by decide)
      [rowUpdate 5 sampleDec sendNetworkFail rowQ rowQ] ["q1"] (by rfl)

/-- A concrete row whose stored payload does not decode. -/
def rowBad : QueueRow :=
  { id := "b1", user_did := "d", payload_json := "zzz", status := .queued,
    attempts := 2, next_retry_at := 0, last_error := "", created_at := 0,
    updated_at := 0, sent_at := none }

/-- C8: a selected row whose payload fails to deserialize transitions
directly to `failed` with `attempts` incremented and the decode error
recorded, independently of the Remote Gateway (no delivery is
attempted for it), and the sweep still processes every selected row. -/
theorem sweep_malformed_payload_direct_fail (st : List QueueRow)
    (did : String) (now : Nat)
    (dec : String → Except String CreatePostPayload)
    (send : CreatePostPayload → SendOutcome) (r : QueueRow) (msg : String)
    (hnodup : (st.map (·.id)).Nodup)
    (hmem : r ∈ selectQueued st did now)
    (hdec : dec r.payload_json = .error msg) :
    (∀ send', rowUpdate now dec send' r r
        = { r with status := .failed, attempts := r.attempts + 1,
                   last_error := "Invalid retry payload: " ++ msg,
                   updated_at := now })
    ∧ ∀ st' ids,
        retry_queued_posts st (some did) true now dec send = .ok (st', ids) →
        (∀ i : Nat, st[i]? = some r →
          st'[i]? = some { r with status := .failed,
                                  attempts := r.attempts + 1,
                                  last_error := "Invalid retry payload: " ++ msg,
                                  updated_at := now })
        ∧ ids = (selectQueued st did now).map (·.id) := by
  constructor
  · intro send'
    unfold rowUpdate
    rw [hdec]
  · intro st' ids heq
    rw [retry_queued_posts_char st did now dec send hnodup] at heq
    rw [Except.ok.injEq, Prod.mk.injEq] at heq
    refine ⟨?_, heq.2.symm⟩
    intro i hget
    have hany : (selectQueued st did now).any
        (fun s => s.id == r.id) = true := by
      rw [List.any_eq_true]
      exact ⟨r, hmem, by simp⟩
    rw [← heq.1, List.getElem?_map, hget]
    simp only [Option.map_some']
    rw [if_pos hany]
    unfold rowUpdate
    rw [hdec]

/-- Witness for C8 at a concrete input: the undecodable row `rowBad`
is selected and fails directly. -/
theorem sweep_malformed_payload_direct_fail_witness :
    rowUpdate 9 sampleDec sendNetworkFail rowBad rowBad
      = { rowBad with status := .failed, attempts := rowBad.attempts + 1,
                      last_error := "Invalid retry payload: bad json",
                      updated_at := 9 } :=
  (sweep_malformed_payload_direct_fail [rowBad, rowQ] "d" 9 sampleDec
    sendNetworkFail rowBad "bad json" (by decide) (by decide) (by rfl)).1
    sendNetworkFail

/-- C9: saving a semantically empty draft (text blank after trimming,
no images) is the same operation as clearing the draft for that
context key, and a subsequent load finds nothing. -/
theorem save_empty_draft_is_clear (drafts : List DraftRow) (text : String)
    (reply_to quote_uri quote_cid : Option String)
    (images : List ImageInput) (enc : CreatePostPayload → String)
    (now : Nat) (htext : strTrim text = "") (himg : images = []) :
    save_post_draft drafts text reply_to quote_uri quote_cid images enc now
      = clear_post_draft drafts reply_to quote_uri
    ∧ load_draft_payload
        (save_post_draft drafts text reply_to quote_uri quote_cid images
          enc now) reply_to quote_uri = none := by
  have hcond : ((strTrim text).isEmpty && images.isEmpty) = true := by
    rw [htext, himg]
    rfl
  constructor
  · unfold save_post_draft clear_post_draft
    rw [if_pos hcond]
  · unfold save_post_draft
    rw [if_pos hcond]
    unfold load_draft_payload clear_draft_payload
    rw [List.find?_eq_none]
    intro d hd
    have hmem := List.of_mem_filter hd
    simp only [Bool.not_eq_eq_eq_not, Bool.not_true] at hmem
    simp [hmem]

/-- A concrete pre-existing draft row for the C9 witness. -/
def sampleDraft : DraftRow :=
  { draft_key := "post:new", payload_json := "old", created_at := 0,
    updated_at := 0 }

/-- Witness for C9 at a concrete input: whitespace-only text with no
images clears the stored draft. -/
theorem save_empty_draft_is_clear_witness :
    save_post_draft [sampleDraft] " " none none none [] sampleEnc 9
      = clear_post_draft [sampleDraft] none none
    ∧ load_draft_payload
        (save_post_draft [sampleDraft] " " none none none [] sampleEnc 9)
        none none = none :=
  save_empty_draft_is_clear [sampleDraft] " " none none none [] sampleEnc
    9 (by decide) rfl

/-- C5 counterexample: a successful timeline read with the non-root
cursor `"c"` does write a cache entry for that page — it is persisted
under the cursor key `"c"`, so continuation pages are cached, contrary
to the claim. -/
theorem timeline_continuation_cached_counterexample :
    get_timeline ([] : CacheTable String Nat) (some "u") (some "c") (.ok 7)
      = (.ok 7, [("u", "c", 7)], false)
    ∧ cacheLookup ([("u", "c", (7 : Nat))]) "u" "c" = some 7 := by
  constructor
  · rfl
  · rfl

/-- C5 (amended): `get_timeline` persists every successful synchronous
fetch under the key equal to the request's cursor (the empty key when
the cursor is absent), so continuation pages are cached under their
cursor key; a paginated request performs no initial cache read, but on
fetch failure it does read the cache at that exact cursor key as a
fallback. -/
theorem timeline_pagination_cache_behavior {α : Type}
    (cache : CacheTable String α) (u c : String) (v : α) (e : AppError) :
    get_timeline cache (some u) (some c) (.ok v)
      = (.ok v, cacheUpsert cache u c v, false)
    ∧ get_timeline cache (some u) (some c) (.error e)
      = (match cacheLookup cache u c with
         | some cached => (.ok cached, cache, false)
         | none => (.error e, cache, false)) := by
  constructor
  · rfl
  · simp only [get_timeline, syncFetchAndCache, cursor_key, Option.getD]

/-- C6: on every cache-aside read (timeline, notifications, profile)
whose synchronous fetch fails, the command returns the cache entry of
the exact requested key when one exists (the error is swallowed) and
propagates the fetch error otherwise; in both cases the cache is left
unchanged. -/
theorem cache_fallback_on_fetch_failure {α : Type} (e : AppError)
    (cacheT cacheN : CacheTable String α) (cacheP : CacheTable Handle α)
    (u : String) (cursorT cursorN : Option String) (h : Handle) :
    ((get_timeline cacheT (some u) cursorT (.error e)).1
        = (match cacheLookup cacheT u (cursor_key cursorT) with
           | some v => .ok v
           | none => .error e)
      ∧ (get_timeline cacheT (some u) cursorT (.error e)).2.1 = cacheT)
    ∧ ((get_notifications cacheN (some u) cursorN (.error e)).1
        = (match cacheLookup cacheN u (cursor_key cursorN) with
           | some v => .ok v
           | none => .error e)
      ∧ (get_notifications cacheN (some u) cursorN (.error e)).2.1 = cacheN)
    ∧ ((get_profile cacheP (some u) h (fun _ => .error e)).1
        = (match cacheLookup cacheP u (normalizeHandle h) with
           | some v => .ok v
           | none => .error e)
      ∧ (get_profile cacheP (some u) h (fun _ => .error e)).2.1 = cacheP) := by
  refine ⟨⟨?_, ?_⟩, ⟨?_, ?_⟩, ⟨?_, ?_⟩⟩
  · cases cursorT with
    | none =>
        simp only [get_timeline, cursor_key, Option.getD]
        cases hc : cacheLookup cacheT u "" with
        | some v => simp [hc]
        | none => simp [syncFetchAndCache, hc]
    | some c =>
        simp only [get_timeline, cursor_key, Option.getD]
        cases hc : cacheLookup cacheT u c with
        | some v => simp [syncFetchAndCache, hc]
        | none => simp [syncFetchAndCache, hc]
  · cases cursorT with
    | none =>
        simp only [get_timeline, cursor_key, Option.getD]
        cases hc : cacheLookup cacheT u "" with
        | some v => simp [hc]
        | none => simp [syncFetchAndCache, hc]
    | some c =>
        simp only [get_timeline, cursor_key, Option.getD]
        cases hc : cacheLookup cacheT u c with
        | some v => simp [syncFetchAndCache, hc]
        | none => simp [syncFetchAndCache, hc]
  · cases cursorN with
    | none =>
        simp only [get_notifications, cursor_key, Option.getD]
        cases hc : cacheLookup cacheN u "" with
        | some v => simp [hc]
        | none => simp [syncFetchAndCache, hc]
    | some c =>
        simp only [get_notifications, cursor_key, Option.getD]
        cases hc : cacheLookup cacheN u c with
        | some v => simp [syncFetchAndCache, hc]
        | none => simp [syncFetchAndCache, hc]
  · cases cursorN with
    | none =>
        simp only [get_notifications, cursor_key, Option.getD]
        cases hc : cacheLookup cacheN u "" with
        | some v => simp [hc]
        | none => simp [syncFetchAndCache, hc]
    | some c =>
        simp only [get_notifications, cursor_key, Option.getD]
        cases hc : cacheLookup cacheN u c with
        | some v => simp [syncFetchAndCache, hc]
        | none => simp [syncFetchAndCache, hc]
  · simp only [get_profile]
    unfold get_profile_core
    cases hc : cacheLookup cacheP u (normalizeHandle h) with
    | some v => rfl
    | none => rfl
  · simp only [get_profile]
    unfold get_profile_core
    cases hc : cacheLookup cacheP u (normalizeHandle h) with
    | some v => rfl
    | none => rfl

/-- C10: `get_profile` normalizes the requested handle (trim then
lowercase) before every cache and fetch access, so a request is
equivalent to the request for its normalized handle, and any two
handles with the same normalization behave identically (sharing one
profile cache entry). -/
theorem get_profile_normalizes_handle {α : Type}
    (cache : CacheTable Handle α) (sessionDid : Option String)
    (h : Handle) (fetch : Handle → Except AppError α) :
    get_profile cache sessionDid h fetch
      = get_profile cache sessionDid (normalizeHandle h) fetch
    ∧ ∀ h₁ h₂ : Handle, normalizeHandle h₁ = normalizeHandle h₂ →
        get_profile cache sessionDid h₁ fetch
          = get_profile cache sessionDid h₂ fetch := by
  constructor
  · cases sessionDid with
    | none => rfl
    | some u =>
        simp only [get_profile]
        rw [normalizeHandle_idem]
  · intro h₁ h₂ heq
    cases sessionDid with
    | none => rfl
    | some u =>
        simp only [get_profile]
        rw [heq]

/-- Witness for C10 at concrete inputs: `" ALiCe"` and `"alice "`
(as scalar-value lists) produce identical reads. -/
theorem get_profile_normalizes_handle_witness :
    get_profile ([] : CacheTable Handle Nat) (some "u")
        [32, 65, 76, 105, 67, 101] (fun _ => .ok 1)
      = get_profile ([] : CacheTable Handle Nat) (some "u")
        [97, 108, 105, 99, 101, 32] (fun _ => .ok 1) :=
  (get_profile_normalizes_handle ([] : CacheTable Handle Nat) (some "u")
    [] (fun _ => .ok 1)).2 [32, 65, 76, 105, 67, 101]
    [97, 108, 105, 99, 101, 32] (by decide)
